import Mathlib

/-!
Shallow embedding of the gesture-recognition and camera-mapping pipeline of
the hand-tracking visualization frontend (HandTracker.jsx and
ScatterPlot3D.jsx).  JavaScript numbers are modelled as real numbers; the
mutable refs holding cross-frame memory are modelled as an explicit
TemporalState value threaded through the detector functions.
-/

/-- A landmark or derived point: a 3D point with coordinates x, y, z. -/
structure Point where
  x : ℝ
  y : ℝ
  z : ℝ

/-- A hand is a fixed ordered sequence of 21 landmarks. -/
def Hand : Type := Fin 21 → Point

/-- HandTracker.jsx distance: Math.sqrt((p1.x-p2.x)^2 + (p1.y-p2.y)^2).
Only the normalized x and y coordinates enter; z is not used. -/
noncomputable def distance (p1 p2 : Point) : ℝ :=
  Real.sqrt ((p1.x - p2.x) ^ 2 + (p1.y - p2.y) ^ 2)

/-- HandTracker.jsx getPalmCenter: per-coordinate mean of landmarks
0, 5, 9, 13, 17. -/
noncomputable def getPalmCenter (hand : Hand) : Point :=
  { x := ((hand 0).x + (hand 5).x + (hand 9).x + (hand 13).x + (hand 17).x) / 5
    y := ((hand 0).y + (hand 5).y + (hand 9).y + (hand 13).y + (hand 17).y) / 5
    z := ((hand 0).z + (hand 5).z + (hand 9).z + (hand 13).z + (hand 17).z) / 5 }

/-- HandTracker.jsx isHandPinched: distance between thumb tip (landmark 4)
and index tip (landmark 8) is strictly below 0.1. -/
noncomputable def isHandPinched (hand : Hand) : Bool :=
  decide (distance (hand 4) (hand 8) < 0.1)

/-- HandTracker.jsx isHandFist: every non-thumb fingertip y is strictly
greater than the y of its MCP joint (image y grows downward). -/
noncomputable def isHandFist (hand : Hand) : Bool :=
  decide ((hand 8).y > (hand 5).y ∧ (hand 12).y > (hand 9).y ∧
    (hand 16).y > (hand 13).y ∧ (hand 20).y > (hand 17).y)

/-- C7: isHandPinched holds exactly when the Euclidean distance between the
thumb tip (landmark 4) and the index tip (landmark 8), taken over the
normalized x, y coordinates, is strictly less than 0.1; equivalently the
squared distance is below 0.01. -/
theorem isHandPinched_iff_sq_dist_lt (hand : Hand) :
    isHandPinched hand = true ↔
      ((hand 4).x - (hand 8).x) ^ 2 + ((hand 4).y - (hand 8).y) ^ 2 <
        (0.1 : ℝ) ^ 2 := by
  have h01 : (0 : ℝ) < 0.1 := by norm_num
  simp only [isHandPinched, decide_eq_true_eq, distance]
  exact Real.sqrt_lt' h01

/-- Per-coordinate difference a - b, as computed inline for gesture deltas. -/
def psub (a b : Point) : Point :=
  { x := a.x - b.x, y := a.y - b.y, z := a.z - b.z }

/-- The mutable refs of HandTracker.jsx holding cross-frame memory:
lastPositionRef, lastPinchDistRef, lastTwoHandsDistRef,
lastTwoHandsCenterRef. -/
structure TemporalState where
  lastSinglePalm : Option Point
  lastPinchDist : Option ℝ
  lastTwoHandDist : Option ℝ
  lastTwoHandCenter : Option Point

/-- The gesture object emitted by the detector; the detector output is an
Option Gesture, with none standing for the null gesture. -/
inductive Gesture where
  | fist (position : Point) (delta : Option Point)
  | twohandPinch (strength : ℝ)
  | twohandSpread (strength : ℝ)

/-- HandTracker.jsx detectTwoHandGesture on the first two hands.  A zoom
gesture is produced only when both hands are pinched and a previous
distance baseline exists and the distance delta leaves the 0.008 dead
zone; the distance baseline is overwritten with the current inter-palm
distance on every call.  The source computes a center point between the
palms but never stores it, so lastTwoHandCenter is not written. -/
noncomputable def detectTwoHandGesture (hand1 hand2 : Hand) (s : TemporalState) :
    Option Gesture × TemporalState :=
  let palm1 := getPalmCenter hand1
  let palm2 := getPalmCenter hand2
  let bothPinched := isHandPinched hand1 && isHandPinched hand2
  let handsDistance := distance palm1 palm2
  let gesture : Option Gesture :=
    match s.lastTwoHandDist with
    | some prev =>
        if bothPinched then
          let distDelta := handsDistance - prev
          if |distDelta| > 0.008 then
            if distDelta > 0 then
              some (.twohandSpread (min 1 (distDelta * 12)))
            else
              some (.twohandPinch (min 1 (|distDelta| * 12)))
          else none
        else none
    | none => none
  (gesture, { s with lastTwoHandDist := some handsDistance })

/-- HandTracker.jsx detectSingleHandGesture: a fist emits a fist gesture at
the palm center, with a delta only when a last palm position is stored;
an open hand emits nothing and clears the stored palm position. -/
noncomputable def detectSingleHandGesture (hand : Hand) (s : TemporalState) :
    Option Gesture × TemporalState :=
  let palmCenter := getPalmCenter hand
  if isHandFist hand then
    (some (.fist palmCenter (s.lastSinglePalm.map (fun last => psub palmCenter last))),
      { s with lastSinglePalm := some palmCenter })
  else
    (none, { s with lastSinglePalm := none })

/-- HandTracker.jsx detectGesture: two or more hands clear the single-hand
refs and run the two-hand detector on the first two hands; exactly one
hand clears the two-hand refs and runs the single-hand detector; an empty
list returns null without touching any ref. -/
noncomputable def detectGesture (landmarks : List Hand) (s : TemporalState) :
    Option Gesture × TemporalState :=
  match landmarks with
  | [] => (none, s)
  | [hand] =>
      detectSingleHandGesture hand
        { s with lastTwoHandDist := none, lastTwoHandCenter := none }
  | hand1 :: hand2 :: _ =>
      detectTwoHandGesture hand1 hand2
        { s with lastSinglePalm := none, lastPinchDist := none }

/-- HandTracker.jsx onResults, decision layer only: with at least one hand
the frame goes through detectGesture; with zero hands the callback emits
null and clears only lastPositionRef. -/
noncomputable def processFrame (hands : List Hand) (s : TemporalState) :
    Option Gesture × TemporalState :=
  if hands.isEmpty then (none, { s with lastSinglePalm := none })
  else detectGesture hands s

/-- Toggling enabled to false: the useEffect branch in HandTracker.jsx stops
the camera stream and sets the status, leaving every ref untouched, while
the companion effect in ScatterPlot3D.jsx resets the current gesture to
null.  No ref is cleared on disable or on re-enable. -/
def disableStep (s : TemporalState) : Option Gesture × TemporalState :=
  (none, s)

/-- The camera state the Camera Mapper acts on: the orbit azimuth angle held
by the OrbitControls, and the camera position vector whose length is the
orbit distance. -/
structure CameraState where
  azimuth : ℝ
  position : Point

/-- three.js Vector3.length of the camera position. -/
noncomputable def norm3 (p : Point) : ℝ :=
  Real.sqrt (p.x ^ 2 + p.y ^ 2 + p.z ^ 2)

/-- three.js Vector3.multiplyScalar. -/
def pscale (c : ℝ) (p : Point) : Point :=
  { x := c * p.x, y := c * p.y, z := c * p.z }

/-- three.js Vector3.normalize: divide by the length when it is nonzero,
otherwise by 1. -/
noncomputable def pnormalize (p : Point) : Point :=
  if norm3 p = 0 then p else pscale (1 / norm3 p) p

/-- ScatterPlot3D.jsx GestureController.useFrame, the gesture-application
portion: a fist carrying a delta rotates the azimuth; a two-hand pinch or
spread rescales the camera position to the clamped new distance; a fist
without delta and the null gesture change nothing.  The OrbitControls
damping update that the source runs every tick is the external
collaborator's pass and is outside this state. -/
noncomputable def gestureStep (g : Option Gesture) (c : CameraState) : CameraState :=
  match g with
  | some (.fist _ (some delta)) =>
      { c with azimuth := c.azimuth - delta.x * 15 }
  | some (.twohandPinch strength) =>
      let newDistance := max 3 (min 20 (norm3 c.position + strength * 0.5))
      { c with position := pscale newDistance (pnormalize c.position) }
  | some (.twohandSpread strength) =>
      let newDistance := max 3 (min 20 (norm3 c.position - strength * 0.5))
      { c with position := pscale newDistance (pnormalize c.position) }
  | _ => c

/-- Whether a gesture is one of the two zoom gestures. -/
def isZoomGesture : Gesture → Bool
  | .twohandPinch _ => true
  | .twohandSpread _ => true
  | .fist _ _ => false

/-- Applying a sequence of gestures, one per render tick. -/
noncomputable def applyGestures (gs : List Gesture) (c : CameraState) : CameraState :=
  gs.foldl (fun st g => gestureStep (some g) st) c

/-- A hand whose 21 landmarks all sit at the same point.  Its palm center is
that point and its pinch distance is zero. -/
def constHand (p : Point) : Hand := fun _ => p

/-- A hand with the four non-thumb fingertips at y = 1 and every other
landmark at the origin: classified as a fist, with palm center at the
origin. -/
def fistHand : Hand := fun i =>
  if i.val = 8 ∨ i.val = 12 ∨ i.val = 16 ∨ i.val = 20 then
    { x := 0, y := 1, z := 0 }
  else
    { x := 0, y := 0, z := 0 }

/-- A hand with the index tip at x = 1 and every other landmark at the
origin: not pinched (pinch distance 1), palm center at the origin. -/
def openIndexHand : Hand := fun i =>
  if i.val = 8 then { x := 1, y := 0, z := 0 } else { x := 0, y := 0, z := 0 }

theorem getPalmCenter_constHand (p : Point) : getPalmCenter (constHand p) = p := by
  cases p with
  | mk x y z =>
      simp only [getPalmCenter, constHand, Point.mk.injEq]
      refine ⟨by ring, by ring, by ring⟩

theorem distance_self (p : Point) : distance p p = 0 := by
  simp [distance]

theorem isHandPinched_constHand (p : Point) : isHandPinched (constHand p) = true := by
  simp only [isHandPinched, constHand, decide_eq_true_eq, distance]
  norm_num

@[simp] theorem fistHand_0 : fistHand 0 = ⟨0, 0, 0⟩ := rfl
@[simp] theorem fistHand_4 : fistHand 4 = ⟨0, 0, 0⟩ := rfl
@[simp] theorem fistHand_5 : fistHand 5 = ⟨0, 0, 0⟩ := rfl
@[simp] theorem fistHand_8 : fistHand 8 = ⟨0, 1, 0⟩ := rfl
@[simp] theorem fistHand_9 : fistHand 9 = ⟨0, 0, 0⟩ := rfl
@[simp] theorem fistHand_12 : fistHand 12 = ⟨0, 1, 0⟩ := rfl
@[simp] theorem fistHand_13 : fistHand 13 = ⟨0, 0, 0⟩ := rfl
@[simp] theorem fistHand_16 : fistHand 16 = ⟨0, 1, 0⟩ := rfl
@[simp] theorem fistHand_17 : fistHand 17 = ⟨0, 0, 0⟩ := rfl
@[simp] theorem fistHand_20 : fistHand 20 = ⟨0, 1, 0⟩ := rfl

@[simp] theorem openIndexHand_0 : openIndexHand 0 = ⟨0, 0, 0⟩ := rfl
@[simp] theorem openIndexHand_4 : openIndexHand 4 = ⟨0, 0, 0⟩ := rfl
@[simp] theorem openIndexHand_5 : openIndexHand 5 = ⟨0, 0, 0⟩ := rfl
@[simp] theorem openIndexHand_8 : openIndexHand 8 = ⟨1, 0, 0⟩ := rfl
@[simp] theorem openIndexHand_9 : openIndexHand 9 = ⟨0, 0, 0⟩ := rfl
@[simp] theorem openIndexHand_13 : openIndexHand 13 = ⟨0, 0, 0⟩ := rfl
@[simp] theorem openIndexHand_17 : openIndexHand 17 = ⟨0, 0, 0⟩ := rfl

theorem isHandFist_fistHand : isHandFist fistHand = true := by
  simp only [isHandFist, fistHand_5, fistHand_8, fistHand_9, fistHand_12,
    fistHand_13, fistHand_16, fistHand_17, fistHand_20, decide_eq_true_eq]
  norm_num

theorem isHandFist_constHand (p : Point) : isHandFist (constHand p) = false := by
  simp [isHandFist, constHand]

theorem getPalmCenter_fistHand : getPalmCenter fistHand = ⟨0, 0, 0⟩ := by
  simp only [getPalmCenter, fistHand_0, fistHand_5, fistHand_9, fistHand_13,
    fistHand_17]
  norm_num

theorem isHandPinched_openIndexHand : isHandPinched openIndexHand = false := by
  simp only [isHandPinched, openIndexHand_4, openIndexHand_8, distance,
    decide_eq_false_iff_not]
  norm_num

theorem getPalmCenter_openIndexHand : getPalmCenter openIndexHand = ⟨0, 0, 0⟩ := by
  simp only [getPalmCenter, openIndexHand_0, openIndexHand_5, openIndexHand_9,
    openIndexHand_13, openIndexHand_17]
  norm_num

/-- C4: on a single-hand frame, a fist emits a fist gesture at the palm
center, carrying delta = position - lastSinglePalm per coordinate exactly
when lastSinglePalm is set, and stores the new palm position; an open hand
emits nothing and sets lastSinglePalm to null, so the following fist frame
carries no delta. -/
theorem detectSingleHandGesture_spec (hand : Hand) (s : TemporalState) :
    (isHandFist hand = true →
      detectSingleHandGesture hand s =
        (some (.fist (getPalmCenter hand)
            (s.lastSinglePalm.map (fun last => psub (getPalmCenter hand) last))),
          { s with lastSinglePalm := some (getPalmCenter hand) })) ∧
    (isHandFist hand = false →
      detectSingleHandGesture hand s = (none, { s with lastSinglePalm := none })) := by
  constructor <;> intro h <;> simp [detectSingleHandGesture, h]

theorem detectSingleHandGesture_spec_witness :
    detectSingleHandGesture fistHand ⟨some ⟨1/4, 0, 0⟩, none, none, none⟩ =
      (some (.fist (getPalmCenter fistHand)
          ((some (⟨1/4, 0, 0⟩ : Point)).map (fun last => psub (getPalmCenter fistHand) last))),
        ⟨some (getPalmCenter fistHand), none, none, none⟩) ∧
    detectSingleHandGesture (constHand ⟨0, 0, 0⟩) ⟨some ⟨1/4, 0, 0⟩, none, none, none⟩ =
      (none, ⟨none, none, none, none⟩) :=
  ⟨(detectSingleHandGesture_spec fistHand ⟨some ⟨1/4, 0, 0⟩, none, none, none⟩).1
      isHandFist_fistHand,
    (detectSingleHandGesture_spec (constHand ⟨0, 0, 0⟩)
      ⟨some ⟨1/4, 0, 0⟩, none, none, none⟩).2 (isHandFist_constHand _)⟩

/-- C6: on a two-hand frame where not both hands are pinched, the detector
emits nothing regardless of the distance change, yet the distance baseline
is still refreshed to the current inter-palm distance. -/
theorem detectTwoHandGesture_gating (hand1 hand2 : Hand) (s : TemporalState)
    (h : ¬(isHandPinched hand1 = true ∧ isHandPinched hand2 = true)) :
    detectTwoHandGesture hand1 hand2 s =
      (none,
        { s with
          lastTwoHandDist := some (distance (getPalmCenter hand1) (getPalmCenter hand2)) }) := by
  have hb : (isHandPinched hand1 && isHandPinched hand2) = false := by
    cases h1 : isHandPinched hand1 <;> cases h2 : isHandPinched hand2 <;> simp_all
  cases hd : s.lastTwoHandDist <;> simp [detectTwoHandGesture, hb, hd]

theorem detectTwoHandGesture_gating_witness :
    detectTwoHandGesture (constHand ⟨0, 0, 0⟩) openIndexHand ⟨none, none, some 1, none⟩ =
      (none, ⟨none, none, some 0, none⟩) := by
  have hd : distance (getPalmCenter (constHand ⟨0, 0, 0⟩)) (getPalmCenter openIndexHand) = 0 := by
    rw [getPalmCenter_constHand, getPalmCenter_openIndexHand, distance_self]
  rw [detectTwoHandGesture_gating (constHand ⟨0, 0, 0⟩) openIndexHand
    ⟨none, none, some 1, none⟩ (by simp [isHandPinched_openIndexHand]), hd]

/-- C3: on a two-hand frame with both hands pinched and a distance baseline
set, with delta the current minus the previous inter-palm distance: a delta
within the inclusive 0.008 dead zone yields no gesture, a delta above 0.008
yields a spread of strength min 1 (delta * 12), and a delta below -0.008
yields a pinch of strength min 1 (abs delta * 12). -/
theorem detectTwoHandGesture_dead_zone (hand1 hand2 : Hand) (s : TemporalState)
    (d0 : ℝ) (h1 : isHandPinched hand1 = true) (h2 : isHandPinched hand2 = true)
    (hprev : s.lastTwoHandDist = some d0) :
    (|distance (getPalmCenter hand1) (getPalmCenter hand2) - d0| ≤ 0.008 →
      (detectTwoHandGesture hand1 hand2 s).1 = none) ∧
    (0.008 < distance (getPalmCenter hand1) (getPalmCenter hand2) - d0 →
      (detectTwoHandGesture hand1 hand2 s).1 =
        some (.twohandSpread
          (min 1 ((distance (getPalmCenter hand1) (getPalmCenter hand2) - d0) * 12)))) ∧
    (distance (getPalmCenter hand1) (getPalmCenter hand2) - d0 < -0.008 →
      (detectTwoHandGesture hand1 hand2 s).1 =
        some (.twohandPinch
          (min 1 (|distance (getPalmCenter hand1) (getPalmCenter hand2) - d0| * 12)))) := by
  refine ⟨fun hle => ?_, fun hgt => ?_, fun hlt => ?_⟩
  · have hno : ¬(0.008 < |distance (getPalmCenter hand1) (getPalmCenter hand2) - d0|) :=
      not_lt.mpr hle
    simp [detectTwoHandGesture, hprev, h1, h2, hno]
  · have habs : 0.008 < |distance (getPalmCenter hand1) (getPalmCenter hand2) - d0| :=
      lt_of_lt_of_le hgt (le_abs_self _)
    have hpos : 0 < distance (getPalmCenter hand1) (getPalmCenter hand2) - d0 :=
      lt_trans (by norm_num) hgt
    simp [detectTwoHandGesture, hprev, h1, h2, habs, hpos]
  · have hneg : distance (getPalmCenter hand1) (getPalmCenter hand2) - d0 < 0 :=
      lt_trans hlt (by norm_num)
    have habs : 0.008 < |distance (getPalmCenter hand1) (getPalmCenter hand2) - d0| := by
      rw [abs_of_neg hneg]
      linarith
    have hno : ¬(0 < distance (getPalmCenter hand1) (getPalmCenter hand2) - d0) :=
      not_lt.mpr (le_of_lt hneg)
    simp [detectTwoHandGesture, hprev, h1, h2, habs, hno]

theorem detectTwoHandGesture_dead_zone_witness :
    (detectTwoHandGesture (constHand ⟨0, 0, 0⟩) (constHand ⟨491/1000, 0, 0⟩)
        ⟨none, none, some (1/2), none⟩).1 =
      some (.twohandPinch 0.108) := by
  have hd : distance (getPalmCenter (constHand ⟨0, 0, 0⟩))
      (getPalmCenter (constHand ⟨491/1000, 0, 0⟩)) = 491/1000 := by
    rw [getPalmCenter_constHand, getPalmCenter_constHand]
    simp only [distance]
    rw [show ((0 : ℝ) - 491/1000) ^ 2 + ((0 : ℝ) - 0) ^ 2 = (491/1000) ^ 2 by ring]
    exact Real.sqrt_sq (by norm_num)
  have h := (detectTwoHandGesture_dead_zone (constHand ⟨0, 0, 0⟩)
    (constHand ⟨491/1000, 0, 0⟩) ⟨none, none, some (1/2), none⟩ (1/2)
    (isHandPinched_constHand _) (isHandPinched_constHand _) rfl).2.2
    (by rw [hd]; norm_num)
  rw [hd] at h
  rw [h, show |(491/1000 : ℝ) - 1/2| = 9/1000 by rw [abs_of_neg (by norm_num)]; norm_num,
    show min (1 : ℝ) (9/1000 * 12) = 0.108 by norm_num [min_def]]

/-- C9: after every frame of the detector, at most one of the single-hand
sub-state and the two-hand sub-state is live: either lastSinglePalm is
null, or both lastTwoHandDist and lastTwoHandCenter are null. -/
theorem processFrame_mode_isolation (hands : List Hand) (s : TemporalState) :
    (processFrame hands s).2.lastSinglePalm = none ∨
    ((processFrame hands s).2.lastTwoHandDist = none ∧
      (processFrame hands s).2.lastTwoHandCenter = none) := by
  match hands with
  | [] => left; simp [processFrame]
  | [hand] =>
      right
      by_cases hf : isHandFist hand = true
      · simp [processFrame, detectGesture, detectSingleHandGesture, hf]
      · simp only [Bool.not_eq_true] at hf
        simp [processFrame, detectGesture, detectSingleHandGesture, hf]
  | hand1 :: hand2 :: rest =>
      left
      simp [processFrame, detectGesture, detectTwoHandGesture]

/-- C2 counterexample: a zero-hand frame does not clear the two-hand
distance baseline, and a both-pinched two-hand frame right after the
zero-hand gap computes a zoom delta from the baseline recorded before the
gap: with baseline 0.6 surviving the gap and new inter-palm distance
0.591, the detector emits a pinch of strength 0.108. -/
theorem processFrame_zero_hands_cx :
    (processFrame ([] : List Hand) ⟨none, none, some (3/5), none⟩).2.lastTwoHandDist =
      some (3/5) ∧
    (processFrame [constHand ⟨0, 0, 0⟩, constHand ⟨591/1000, 0, 0⟩]
        (processFrame ([] : List Hand) ⟨none, none, some (3/5), none⟩).2).1 =
      some (.twohandPinch 0.108) := by
  have hd : distance (getPalmCenter (constHand ⟨0, 0, 0⟩))
      (getPalmCenter (constHand ⟨591/1000, 0, 0⟩)) = 591/1000 := by
    rw [getPalmCenter_constHand, getPalmCenter_constHand]
    simp only [distance]
    rw [show ((0 : ℝ) - 591/1000) ^ 2 + ((0 : ℝ) - 0) ^ 2 = (591/1000) ^ 2 by ring]
    exact Real.sqrt_sq (by norm_num)
  constructor
  · simp [processFrame]
  · simp only [processFrame, detectGesture, List.isEmpty_nil, List.isEmpty_cons,
      if_true, if_false, Bool.false_eq_true]
    simp only [detectTwoHandGesture, isHandPinched_constHand, Bool.and_self, hd]
    rw [show (591/1000 : ℝ) - 3/5 = -(9/1000) by norm_num]
    rw [abs_neg, abs_of_nonneg (by norm_num : (0:ℝ) ≤ 9/1000)]
    rw [if_pos (by norm_num : (9/1000 : ℝ) > 0.008), if_neg (by norm_num : ¬((-(9/1000) : ℝ) > 0))]
    rw [show min (1 : ℝ) (9/1000 * 12) = 0.108 by norm_num [min_def]]
    simp

/-- C2 amended: on a zero-hand frame the callback emits None and clears only
lastSinglePalm; lastPinchDist, lastTwoHandDist and lastTwoHandCenter keep
their previous values, so a both-pinched two-hand frame right after a
zero-hand gap computes its zoom delta from the pre-gap baseline. -/
theorem processFrame_zero_hands (s : TemporalState) :
    processFrame ([] : List Hand) s = (none, { s with lastSinglePalm := none }) := by
  simp [processFrame]

/-- C1 counterexample: disabling leaves the refs untouched, so lastSinglePalm
is still set right after a disable, and the first fist frame after
re-enabling emits a fist carrying a delta computed against the pre-disable
palm position rather than a delta-free fist. -/
theorem disableStep_cx :
    (disableStep ⟨some ⟨1/2, 1/2, 1/2⟩, none, none, none⟩).2.lastSinglePalm ≠ none ∧
    (processFrame [fistHand]
        (disableStep ⟨some ⟨1/2, 1/2, 1/2⟩, none, none, none⟩).2).1 =
      some (.fist ⟨0, 0, 0⟩ (some ⟨-(1/2), -(1/2), -(1/2)⟩)) := by
  constructor
  · simp [disableStep]
  · simp only [disableStep, processFrame, detectGesture, List.isEmpty_cons,
      Bool.false_eq_true, if_false]
    simp only [detectSingleHandGesture, isHandFist_fistHand, if_true,
      getPalmCenter_fistHand, Option.map_some]
    simp only [psub]
    norm_num

/-- C1 amended: toggling enabled to false forces the current gesture to None
but leaves the TemporalState unchanged; in particular, when lastSinglePalm
holds a pre-disable palm position, the first fist frame after re-enabling
emits a fist whose delta is computed against that stale position. -/
theorem disableStep_spec (s : TemporalState) (p : Point) (hand : Hand)
    (hpalm : s.lastSinglePalm = some p) (hfist : isHandFist hand = true) :
    disableStep s = (none, s) ∧
    (processFrame [hand] s).1 =
      some (.fist (getPalmCenter hand) (some (psub (getPalmCenter hand) p))) := by
  refine ⟨rfl, ?_⟩
  simp [processFrame, detectGesture, detectSingleHandGesture, hfist, hpalm]

theorem disableStep_spec_witness :
    disableStep ⟨some ⟨1/4, 1/4, 1/4⟩, none, none, none⟩ =
      (none, ⟨some ⟨1/4, 1/4, 1/4⟩, none, none, none⟩) ∧
    (processFrame [fistHand] ⟨some ⟨1/4, 1/4, 1/4⟩, none, none, none⟩).1 =
      some (.fist (getPalmCenter fistHand)
        (some (psub (getPalmCenter fistHand) ⟨1/4, 1/4, 1/4⟩))) :=
  disableStep_spec ⟨some ⟨1/4, 1/4, 1/4⟩, none, none, none⟩ ⟨1/4, 1/4, 1/4⟩ fistHand
    rfl isHandFist_fistHand

theorem norm3_nonneg (p : Point) : 0 ≤ norm3 p :=
  Real.sqrt_nonneg _

theorem pscale_pscale (a b : ℝ) (p : Point) :
    pscale a (pscale b p) = pscale (a * b) p := by
  simp only [pscale, Point.mk.injEq]
  refine ⟨by ring, by ring, by ring⟩

theorem norm3_pscale (c : ℝ) (p : Point) : norm3 (pscale c p) = |c| * norm3 p := by
  simp only [norm3, pscale]
  rw [show (c * p.x) ^ 2 + (c * p.y) ^ 2 + (c * p.z) ^ 2
      = c ^ 2 * (p.x ^ 2 + p.y ^ 2 + p.z ^ 2) by ring]
  rw [Real.sqrt_mul (sq_nonneg c), Real.sqrt_sq_eq_abs]

theorem pnormalize_rescale (d : ℝ) (p : Point) (hp : 0 < norm3 p) :
    pscale d (pnormalize p) = pscale (d / norm3 p) p := by
  rw [pnormalize, if_neg (ne_of_gt hp), pscale_pscale, mul_one_div]

theorem norm3_rescale (d : ℝ) (p : Point) (hp : 0 < norm3 p) (hd : 0 ≤ d) :
    norm3 (pscale d (pnormalize p)) = d := by
  rw [pnormalize, if_neg (ne_of_gt hp), pscale_pscale, norm3_pscale,
    abs_of_nonneg (mul_nonneg hd (one_div_nonneg.mpr (norm3_nonneg p)))]
  field_simp

theorem gestureStep_zoom_norm (g : Gesture) (c : CameraState)
    (hz : isZoomGesture g = true) (hp : 0 < norm3 c.position) :
    3 ≤ norm3 (gestureStep (some g) c).position ∧
      norm3 (gestureStep (some g) c).position ≤ 20 := by
  cases g with
  | fist pos delta => simp [isZoomGesture] at hz
  | twohandPinch strength =>
      have h3 : (3 : ℝ) ≤ max 3 (min 20 (norm3 c.position + strength * 0.5)) :=
        le_max_left _ _
      have h20 : max 3 (min 20 (norm3 c.position + strength * 0.5)) ≤ 20 :=
        max_le (by norm_num) (min_le_left _ _)
      have hres : norm3 (gestureStep (some (.twohandPinch strength)) c).position =
          max 3 (min 20 (norm3 c.position + strength * 0.5)) := by
        simp only [gestureStep]
        exact norm3_rescale _ _ hp (le_trans (by norm_num) h3)
      rw [hres]
      exact ⟨h3, h20⟩
  | twohandSpread strength =>
      have h3 : (3 : ℝ) ≤ max 3 (min 20 (norm3 c.position - strength * 0.5)) :=
        le_max_left _ _
      have h20 : max 3 (min 20 (norm3 c.position - strength * 0.5)) ≤ 20 :=
        max_le (by norm_num) (min_le_left _ _)
      have hres : norm3 (gestureStep (some (.twohandSpread strength)) c).position =
          max 3 (min 20 (norm3 c.position - strength * 0.5)) := by
        simp only [gestureStep]
        exact norm3_rescale _ _ hp (le_trans (by norm_num) h3)
      rw [hres]
      exact ⟨h3, h20⟩

/-- C8: a fist gesture carrying a delta sets the azimuth to
azimuth - delta.x * 15 and leaves the camera position (hence the
distance) untouched; a fist without delta and the null gesture leave the
camera state exactly as the gesture input found it (only the external
damping pass still runs that tick). -/
theorem gestureStep_fist_spec (c : CameraState) (pos delta : Point) :
    gestureStep (some (.fist pos (some delta))) c =
      { c with azimuth := c.azimuth - delta.x * 15 } ∧
    gestureStep (some (.fist pos none)) c = c ∧
    gestureStep none c = c :=
  ⟨rfl, rfl, rfl⟩

/-- C5: starting from any camera position of positive length, applying any
nonempty sequence of zoom gestures keeps the camera distance within
[3, 20]; since every prefix of such a sequence is itself such a sequence,
the distance is in [3, 20] after each step. -/
theorem applyGestures_zoom_bounds (gs : List Gesture) (c : CameraState)
    (hz : ∀ g ∈ gs, isZoomGesture g = true) (hne : gs ≠ [])
    (hp : 0 < norm3 c.position) :
    3 ≤ norm3 (applyGestures gs c).position ∧
      norm3 (applyGestures gs c).position ≤ 20 := by
  induction gs generalizing c with
  | nil => exact absurd rfl hne
  | cons g rest ih =>
      have hstep := gestureStep_zoom_norm g c (hz g (by simp)) hp
      cases rest with
      | nil => simpa [applyGestures] using hstep
      | cons g2 rest2 =>
          have hstate : applyGestures (g :: g2 :: rest2) c =
              applyGestures (g2 :: rest2) (gestureStep (some g) c) := by
            simp [applyGestures]
          rw [hstate]
          exact ih (gestureStep (some g) c)
            (fun x hx => hz x (List.mem_cons_of_mem g hx)) (by simp)
            (lt_of_lt_of_le (by norm_num) hstep.1)

theorem applyGestures_zoom_bounds_witness :
    3 ≤ norm3 (applyGestures [.twohandPinch 1] ⟨0, ⟨3, 0, 0⟩⟩).position ∧
      norm3 (applyGestures [.twohandPinch 1] ⟨0, ⟨3, 0, 0⟩⟩).position ≤ 20 :=
  applyGestures_zoom_bounds [.twohandPinch 1] ⟨0, ⟨3, 0, 0⟩⟩
    (by intro g hg; rw [List.mem_singleton] at hg; subst hg; rfl)
    (by simp)
    (by simp only [norm3]; exact Real.sqrt_pos.mpr (by norm_num))

/-- C10: a zoom step leaves the direction of the camera position unchanged:
the new position is the old position scaled by the positive factor
newDistance / oldLength, its length is the clamped new distance, and the
azimuth field is untouched, for both pinch and spread. -/
theorem gestureStep_zoom_direction (strength : ℝ) (c : CameraState)
    (hp : 0 < norm3 c.position) :
    ((gestureStep (some (.twohandPinch strength)) c).position =
        pscale (max 3 (min 20 (norm3 c.position + strength * 0.5)) / norm3 c.position)
          c.position ∧
      0 < max 3 (min 20 (norm3 c.position + strength * 0.5)) / norm3 c.position ∧
      norm3 (gestureStep (some (.twohandPinch strength)) c).position =
        max 3 (min 20 (norm3 c.position + strength * 0.5)) ∧
      (gestureStep (some (.twohandPinch strength)) c).azimuth = c.azimuth) ∧
    ((gestureStep (some (.twohandSpread strength)) c).position =
        pscale (max 3 (min 20 (norm3 c.position - strength * 0.5)) / norm3 c.position)
          c.position ∧
      0 < max 3 (min 20 (norm3 c.position - strength * 0.5)) / norm3 c.position ∧
      norm3 (gestureStep (some (.twohandSpread strength)) c).position =
        max 3 (min 20 (norm3 c.position - strength * 0.5)) ∧
      (gestureStep (some (.twohandSpread strength)) c).azimuth = c.azimuth) := by
  have h3p : (0 : ℝ) < max 3 (min 20 (norm3 c.position + strength * 0.5)) :=
    lt_of_lt_of_le (by norm_num) (le_max_left _ _)
  have h3m : (0 : ℝ) < max 3 (min 20 (norm3 c.position - strength * 0.5)) :=
    lt_of_lt_of_le (by norm_num) (le_max_left _ _)
  refine ⟨⟨?_, div_pos h3p hp, ?_, rfl⟩, ⟨?_, div_pos h3m hp, ?_, rfl⟩⟩
  · simp only [gestureStep]
    exact pnormalize_rescale _ _ hp
  · simp only [gestureStep]
    exact norm3_rescale _ _ hp (le_of_lt h3p)
  · simp only [gestureStep]
    exact pnormalize_rescale _ _ hp
  · simp only [gestureStep]
    exact norm3_rescale _ _ hp (le_of_lt h3m)

theorem gestureStep_zoom_direction_witness :
    ((gestureStep (some (.twohandPinch 1)) ⟨0, ⟨3, 0, 0⟩⟩).position =
        pscale
          (max 3 (min 20 (norm3 (⟨3, 0, 0⟩ : Point) + 1 * 0.5)) /
            norm3 (⟨3, 0, 0⟩ : Point)) ⟨3, 0, 0⟩ ∧
      0 < max 3 (min 20 (norm3 (⟨3, 0, 0⟩ : Point) + 1 * 0.5)) /
          norm3 (⟨3, 0, 0⟩ : Point) ∧
      norm3 (gestureStep (some (.twohandPinch 1)) ⟨0, ⟨3, 0, 0⟩⟩).position =
        max 3 (min 20 (norm3 (⟨3, 0, 0⟩ : Point) + 1 * 0.5)) ∧
      (gestureStep (some (.twohandPinch 1)) ⟨0, ⟨3, 0, 0⟩⟩).azimuth = 0) ∧
    ((gestureStep (some (.twohandSpread 1)) ⟨0, ⟨3, 0, 0⟩⟩).position =
        pscale
          (max 3 (min 20 (norm3 (⟨3, 0, 0⟩ : Point) - 1 * 0.5)) /
            norm3 (⟨3, 0, 0⟩ : Point)) ⟨3, 0, 0⟩ ∧
      0 < max 3 (min 20 (norm3 (⟨3, 0, 0⟩ : Point) - 1 * 0.5)) /
          norm3 (⟨3, 0, 0⟩ : Point) ∧
      norm3 (gestureStep (some (.twohandSpread 1)) ⟨0, ⟨3, 0, 0⟩⟩).position =
        max 3 (min 20 (norm3 (⟨3, 0, 0⟩ : Point) - 1 * 0.5)) ∧
      (gestureStep (some (.twohandSpread 1)) ⟨0, ⟨3, 0, 0⟩⟩).azimuth = 0) :=
  gestureStep_zoom_direction 1 ⟨0, ⟨3, 0, 0⟩⟩
    (by simp only [norm3]; exact Real.sqrt_pos.mpr (by norm_num))
